import Mathlib

/-!
Shallow embedding of the key/session lifecycle engine of the `key_api`
repository (Express + Prisma).  Timestamps are modelled as natural numbers
counting milliseconds since the epoch, exactly the value of `Date.getTime()`
in the source; ISO-8601 strings produced by `Date.prototype.toISOString` are
fixed-width and compare lexicographically exactly as the instants they denote,
so the source's string comparisons on such timestamps are modelled as `Nat`
comparisons on the underlying instants.  The persistence store is modelled as
a list of rows; Prisma's `findUnique`/`findFirst`/`update`/`delete` calls
become list lookups and row rewrites.
-/

namespace KeyApi

/-- `AccessKeyStatus` enum from the Prisma schema / SQL migration. -/
inductive KeyStatus where
  | ACTIVE
  | EXPIRED
  | REVOKED
  deriving DecidableEq, Repr

/-- `String(status).toLowerCase()` as applied by `mapAccessKeyRecord` in
`src/services/keyService.js` to the stored enum value. -/
def KeyStatus.toLowerString : KeyStatus → String
  | .ACTIVE => "active"
  | .EXPIRED => "expired"
  | .REVOKED => "revoked"

/-- A stored `AccessKey` row (Prisma model / `AccessKey` table). -/
structure AccessKey where
  keyId : String
  userId : String
  status : KeyStatus
  createdAt : Nat
  expiresAt : Nat
  lastAccessed : Option Nat
  usageCount : Nat
  ipAddress : Option String
  createdById : Option String
  deriving DecidableEq, Repr

/-- The snake_case view of a row built by `mapAccessKeyRecord` in
`src/services/keyService.js` (status lowercased, dates rendered to ISO
strings — modelled by their instants). -/
structure MappedKey where
  id_field : Nat
  key_id : String
  user_id : String
  status : String
  created_at : Nat
  expires_at : Nat
  last_accessed : Option Nat
  usage_count : Nat
  ip_address : Option String
  created_by : Option String
  deriving DecidableEq, Repr

/-- `mapAccessKeyRecord` from `src/services/keyService.js`.  The numeric `id`
column is not modelled separately from the row's position; we carry 0. -/
def mapAccessKeyRecord (r : AccessKey) : MappedKey :=
  { id_field := 0
    key_id := r.keyId
    user_id := r.userId
    status := r.status.toLowerString
    created_at := r.createdAt
    expires_at := r.expiresAt
    last_accessed := r.lastAccessed
    usage_count := r.usageCount
    ip_address := r.ipAddress
    created_by := r.createdById }

def msPerHour : Nat := 1000 * 60 * 60

def msPerMinute : Nat := 1000 * 60

/-- Result shape of `getRemainingTime` in `src/utils/keyUtils.js`. -/
structure TimeInfo where
  expired : Bool
  remaining : Nat
  hours : Nat
  minutes : Nat
  formatted : String
  deriving DecidableEq, Repr

/-- `getRemainingTime(expiryDate)` from `src/utils/keyUtils.js`, with the
implicit `new Date()` made an explicit `now` argument.  `diff <= 0` in the
source is `expiryDate ≤ now` here. -/
def getRemainingTime (expiryDate now : Nat) : TimeInfo :=
  if expiryDate ≤ now then
    { expired := true, remaining := 0, hours := 0, minutes := 0, formatted := "Expired" }
  else
    let diff := expiryDate - now
    let hours := diff / msPerHour
    let minutes := (diff % msPerHour) / msPerMinute
    { expired := false, remaining := diff, hours := hours, minutes := minutes,
      formatted := s!"{hours}h {minutes}m" }

/-- `getExpirationDate(hours)` from `src/utils/keyUtils.js`: throws when
`hours <= 0` (modelled as `none`), otherwise now plus `hours` hours.  The
implicit `new Date()` is an explicit `now` argument. -/
def getExpirationDate (hours now : Nat) : Option Nat :=
  if hours = 0 then none
  else some (now + hours * msPerHour)

/-- `isKeyValid(key)` from `src/utils/keyUtils.js`:
`key.status === 'active' && key.expires_at > now`, the implicit
`new Date().toISOString()` made an explicit `now` argument (ISO strings of
instants compare exactly as the instants). -/
def isKeyValid (key : MappedKey) (now : Nat) : Bool :=
  key.status == "active" && decide (now < key.expires_at)

/-- `config.keys.defaultHours` from `src/config/index.js` (env default). -/
def defaultKeyHours : Nat := 24

/-- `config.keys.maxHours` from `src/config/index.js` (env default). -/
def maxKeyHours : Nat := 168

/-- The Prisma `where` clause shared by `getActiveKeyForUser` and
`getActiveKeysCount` in `src/services/keyService.js`:
`userId`, `status: 'ACTIVE'`, `expiresAt: { gt: new Date() }`. -/
def activeRowPred (userId : String) (now : Nat) (r : AccessKey) : Bool :=
  r.userId == userId && r.status == KeyStatus.ACTIVE && decide (now < r.expiresAt)

/-- Prisma `findFirst` with `orderBy: { createdAt: 'desc' }`: among the rows
matching `p`, the one with the greatest `createdAt` (first encountered on
ties, which the database leaves unspecified). -/
def findFirstByCreatedAtDesc (p : AccessKey → Bool) (store : List AccessKey) :
    Option AccessKey :=
  (store.filter p).foldl
    (fun acc r =>
      match acc with
      | none => some r
      | some b => if b.createdAt < r.createdAt then some r else some b)
    none

/-- `KeyService.getKeyById`: `findUnique({ where: { keyId } })` then
`mapAccessKeyRecord`. -/
def getKeyById (store : List AccessKey) (keyId : String) : Option MappedKey :=
  (store.find? (fun r => r.keyId == keyId)).map mapAccessKeyRecord

/-- `KeyService.getActiveKeyForUser` from `src/services/keyService.js`. -/
def getActiveKeyForUser (store : List AccessKey) (userId : String) (now : Nat) :
    Option MappedKey :=
  match findFirstByCreatedAtDesc (activeRowPred userId now) store with
  | none => none
  | some r =>
    let mapped := mapAccessKeyRecord r
    if isKeyValid mapped now then some mapped else none

/-- The `data` payload of the 409 response of `KeyService.createKey`. -/
structure ConflictData where
  key_id : String
  user_id : String
  expires_at : Nat
  time_remaining : TimeInfo
  deriving DecidableEq, Repr

/-- Result of `KeyService.createKey`.  `invalidHours` is the propagated
exception thrown by `getExpirationDate` on a non-positive `hours`. -/
inductive CreateKeyResult where
  | conflict (code : Nat) (data : ConflictData)
  | created (key_id : String) (user_id : String) (expires_at : Nat)
      (valid_for_hours : Nat)
  | invalidHours
  deriving DecidableEq, Repr

/-- `KeyService.createKey(userId, hours, ipAddress, createdById)` from
`src/services/keyService.js`.  The random UUID produced by `generateKey()` is
the explicit `freshKeyId` argument; the database fills `createdAt = now` and
the defaults `lastAccessed = null`, `usageCount = 0`. -/
def createKey (store : List AccessKey) (userId : String) (hours : Nat)
    (ipAddress : Option String) (createdById : Option String) (now : Nat)
    (freshKeyId : String) : CreateKeyResult × List AccessKey :=
  match getActiveKeyForUser store userId now with
  | some existing =>
    (.conflict 409
      { key_id := existing.key_id
        user_id := existing.user_id
        expires_at := existing.expires_at
        time_remaining := getRemainingTime existing.expires_at now }, store)
  | none =>
    match getExpirationDate hours now with
    | none => (.invalidHours, store)
    | some expiresAt =>
      let newKey : AccessKey :=
        { keyId := freshKeyId
          userId := userId
          status := KeyStatus.ACTIVE
          createdAt := now
          expiresAt := expiresAt
          lastAccessed := none
          usageCount := 0
          ipAddress := ipAddress
          createdById := createdById }
      (.created freshKeyId userId expiresAt hours, store ++ [newKey])

/-- The successful (non-404) response body of `KeyService.validateKey`. -/
structure ValidateOk where
  valid : Bool
  key_id : String
  user_id : String
  status : String
  created_at : Nat
  expires_at : Nat
  time_remaining : TimeInfo
  usage_count : Nat
  code : Nat
  deriving DecidableEq, Repr

/-- Result of `KeyService.validateKey`. -/
inductive ValidateResult where
  | notFound (code : Nat)
  | ok (body : ValidateOk)
  deriving DecidableEq, Repr

/-- The row rewrite performed by
`prisma.accessKey.update({ where: { keyId }, data: { usageCount: { increment: 1 }, lastAccessed: new Date() } })`. -/
def bumpUsage (keyId : String) (now : Nat) (store : List AccessKey) :
    List AccessKey :=
  store.map (fun r =>
    if r.keyId == keyId then
      { r with usageCount := r.usageCount + 1, lastAccessed := some now }
    else r)

/-- `KeyService.validateKey(keyId)` from `src/services/keyService.js`.  The
returned `usage_count` in the valid case is read back from the updated row
(`updated.usageCount` in the source). -/
def validateKey (store : List AccessKey) (keyId : String) (now : Nat) :
    ValidateResult × List AccessKey :=
  match getKeyById store keyId with
  | none => (.notFound 404, store)
  | some key =>
    let valid := isKeyValid key now
    let timeInfo := getRemainingTime key.expires_at now
    if valid then
      let store' := bumpUsage keyId now store
      let usageCount :=
        match getKeyById store' keyId with
        | some updated => updated.usage_count
        | none => key.usage_count
      (.ok { valid := valid, key_id := keyId, user_id := key.user_id,
             status := key.status, created_at := key.created_at,
             expires_at := key.expires_at, time_remaining := timeInfo,
             usage_count := usageCount, code := 200 }, store')
    else
      (.ok { valid := valid, key_id := keyId, user_id := key.user_id,
             status := key.status, created_at := key.created_at,
             expires_at := key.expires_at, time_remaining := timeInfo,
             usage_count := key.usage_count, code := 410 }, store)

/-- Result of `KeyService.deleteKey`. -/
inductive DeleteResult where
  | ok
  | notFound (code : Nat)
  deriving DecidableEq, Repr

/-- `KeyService.deleteKey(keyId)`: Prisma `delete({ where: { keyId } })`,
which removes the row or raises `P2025` (mapped to a 404 result) when no row
matches. -/
def deleteKey (store : List AccessKey) (keyId : String) :
    DeleteResult × List AccessKey :=
  if store.any (fun r => r.keyId == keyId) then
    (.ok, store.filter (fun r => !(r.keyId == keyId)))
  else
    (.notFound 404, store)

/-- `KeyService.getTotalKeysCount`. -/
def getTotalKeysCount (store : List AccessKey) : Nat :=
  store.length

/-- `KeyService.getActiveKeysCount`: Prisma `count` with
`status: 'ACTIVE', expiresAt: { gt: new Date() }`. -/
def getActiveKeysCount (store : List AccessKey) (now : Nat) : Nat :=
  (store.filter (fun r =>
    r.status == KeyStatus.ACTIVE && decide (now < r.expiresAt))).length

/-- `KeyService.getExpiredKeysCount`: Prisma `count` with
`OR: [ expiresAt ≤ now, status = 'EXPIRED' ]`. -/
def getExpiredKeysCount (store : List AccessKey) (now : Nat) : Nat :=
  (store.filter (fun r =>
    decide (r.expiresAt ≤ now) || r.status == KeyStatus.EXPIRED)).length

/-! ### Create-key input validation (`src/middleware/validation.js`) -/

/-- Outcome of the `hours` handling in `validateCreateKey`. -/
inductive HoursValidation where
  | rejected (code : Nat)
  | accepted (hours : Nat)
  deriving DecidableEq, Repr

/-- The `hours` branch of `validateCreateKey` in
`src/middleware/validation.js`: an omitted field becomes
`config.keys.defaultHours`; a supplied value is run through `parseInt` (the
already-parsed integer, `none` standing for both an absent field; a
`NaN` parse is folded into the rejected branch below) and rejected with 400
when `isNaN(hoursNum) || hoursNum <= 0 || hoursNum > config.keys.maxHours`;
otherwise the parsed value is stored back into the request. -/
def validateCreateKeyHours (hours : Option Int) : HoursValidation :=
  match hours with
  | none => .accepted defaultKeyHours
  | some h =>
    if h ≤ 0 || h > (maxKeyHours : Int) then .rejected 400
    else .accepted h.toNat

/-! ### Key lifecycle as a transition system (claim C1) -/

/-- Number of rows for `userId` that are ACTIVE and unexpired at `now` —
the business-sense "active" count of spec property P1. -/
def activeKeysFor (store : List AccessKey) (userId : String) (now : Nat) : Nat :=
  (store.filter (activeRowPred userId now)).length

/-- Spec invariant P1: at most one simultaneously ACTIVE and unexpired row
per `user_id`. -/
def SingleActiveInv (store : List AccessKey) (now : Nat) : Prop :=
  ∀ u : String, activeKeysFor store u now ≤ 1

/-- The sequential operations of claim C1: key creation, lazy expiry (the
clock advancing with no store write), and hard deletion. -/
inductive Op where
  | create (userId : String) (hours : Nat) (ip : Option String)
      (createdById : Option String) (freshKeyId : String)
  | advance (delta : Nat)
  | delete (keyId : String)
  deriving DecidableEq, Repr

/-- One step of the lifecycle engine on a (store, clock) pair. -/
def step : List AccessKey × Nat → Op → List AccessKey × Nat
  | (store, now), .create userId hours ip createdById freshKeyId =>
    ((createKey store userId hours ip createdById now freshKeyId).2, now)
  | (store, now), .advance delta => (store, now + delta)
  | (store, now), .delete keyId => ((deleteKey store keyId).2, now)

/-- Run a sequence of operations from an initial (store, clock) pair. -/
def run (ops : List Op) (init : List AccessKey × Nat) : List AccessKey × Nat :=
  ops.foldl step init

/-! ### Admin model (`prisma` schema, `src/services/adminService.js`) -/

/-- `AdminStatus` enum from the Prisma schema / SQL migration. -/
inductive AdminStatus where
  | ACTIVE
  | DISABLED
  deriving DecidableEq, Repr

/-- A stored `AdminUser` row. -/
structure AdminUser where
  id : String
  username : String
  passwordHash : String
  status : AdminStatus
  isPermanent : Bool
  expiresAt : Option Nat
  lastLoginAt : Option Nat
  createdAt : Nat
  updatedAt : Nat
  createdById : Option String
  notes : Option String
  deriving DecidableEq, Repr

/-- The shape returned by `sanitizeAdmin` in `src/services/adminService.js`:
the row minus `passwordHash`. -/
structure SanitizedAdmin where
  id : String
  username : String
  status : AdminStatus
  isPermanent : Bool
  expiresAt : Option Nat
  lastLoginAt : Option Nat
  createdAt : Nat
  updatedAt : Nat
  createdById : Option String
  notes : Option String
  deriving DecidableEq, Repr

/-- `sanitizeAdmin(admin)` from `src/services/adminService.js`. -/
def sanitizeAdmin (a : AdminUser) : SanitizedAdmin :=
  { id := a.id
    username := a.username
    status := a.status
    isPermanent := a.isPermanent
    expiresAt := a.expiresAt
    lastLoginAt := a.lastLoginAt
    createdAt := a.createdAt
    updatedAt := a.updatedAt
    createdById := a.createdById
    notes := a.notes }

/-- ASCII model of JS `String.prototype.toLowerCase` on one character. -/
def lowerChar (c : Char) : Char :=
  if 'A' ≤ c ∧ c ≤ 'Z' then Char.ofNat (c.toNat + 32) else c

/-- ASCII model of JS `String.prototype.toUpperCase` on one character. -/
def upperChar (c : Char) : Char :=
  if 'a' ≤ c ∧ c ≤ 'z' then Char.ofNat (c.toNat - 32) else c

/-- Model of JS `String.prototype.toLowerCase` (ASCII range). -/
def toLowerStr (s : String) : String :=
  String.mk (s.data.map lowerChar)

/-- Model of JS `String.prototype.toUpperCase` (ASCII range). -/
def toUpperStr (s : String) : String :=
  String.mk (s.data.map upperChar)

def isWsChar (c : Char) : Bool :=
  c == ' ' || c == '\t' || c == '\n' || c == '\r'

/-- Model of JS `String.prototype.trim` (ASCII whitespace). -/
def trimStr (s : String) : String :=
  String.mk (((s.data.dropWhile isWsChar).reverse.dropWhile isWsChar).reverse)

/-- The keep-predicate of `listAdmins` in `src/services/adminService.js`:
with `defaultUsername = (process.env.ADMIN_USERNAME || '').trim().toLowerCase()`,
keep the admin when no default username is configured, or when its username
(lowercased) differs from the default, or when it is not permanent. -/
def keepAdmin (envAdminUsername : String) (a : AdminUser) : Bool :=
  let defaultUsername := toLowerStr (trimStr envAdminUsername)
  if defaultUsername == "" then true
  else !(toLowerStr a.username == defaultUsername) || !a.isPermanent

/-- `listAdmins()` from `src/services/adminService.js`: fetch all rows
(`orderBy createdAt asc` — a presentation ordering on an already-materialised
list, modelled as the list itself), filter the bootstrap account out, and
strip password hashes. -/
def listAdmins (admins : List AdminUser) (envAdminUsername : String) :
    List SanitizedAdmin :=
  ((admins.filter (keepAdmin envAdminUsername)).map sanitizeAdmin)

/-! ### Login rate limiter (`src/middleware/adminAuth.js`) -/

/-- The per-IP record `{ count, firstAt }` of the in-memory login-attempt
map. -/
structure AttemptRecord where
  count : Nat
  firstAt : Nat
  deriving DecidableEq, Repr

/-- The in-memory `Map` of login attempts, keyed by client IP.  JS `Map.set`
replaces the value of an existing key in place and otherwise appends. -/
abbrev AttemptMap := List (String × AttemptRecord)

/-- JS `Map.get`. -/
def mapGet (m : AttemptMap) (k : String) : Option AttemptRecord :=
  match m.find? (fun p => p.1 == k) with
  | some p => some p.2
  | none => none

/-- JS `Map.set`. -/
def mapSet (m : AttemptMap) (k : String) (v : AttemptRecord) : AttemptMap :=
  if m.any (fun p => p.1 == k) then
    m.map (fun p => if p.1 == k then (k, v) else p)
  else m ++ [(k, v)]

/-- JS `Map.delete`. -/
def mapDelete (m : AttemptMap) (k : String) : AttemptMap :=
  m.filter (fun p => !(p.1 == k))

/-- `AdminAuth.trackAttempt(ip)` from `src/middleware/adminAuth.js`, with the
implicit `Date.now()` and the instance fields `maxAttempts` / `windowMs`
(env defaults 10 and 15·60·1000) made explicit arguments.  Returns the
`blocked` flag together with the updated attempt map. -/
def trackAttempt (attempts : AttemptMap) (ip : String) (now maxAttempts windowMs : Nat) :
    Bool × AttemptMap :=
  if ip == "" then (false, attempts)
  else
    let record :=
      match mapGet attempts ip with
      | some r => r
      | none => { count := 0, firstAt := now }
    let record :=
      if windowMs < now - record.firstAt then { count := 0, firstAt := now }
      else record
    if maxAttempts ≤ record.count then
      (true, mapSet attempts ip record)
    else
      (false, mapSet attempts ip { record with count := record.count + 1 })

/-- `AdminAuth.resetAttempts(ip)` from `src/middleware/adminAuth.js`. -/
def resetAttempts (attempts : AttemptMap) (ip : String) : AttemptMap :=
  if ip == "" then attempts else mapDelete attempts ip

/-- Outcome of `AdminAuth.authenticate` as far as the login/limiter state
machine is concerned. -/
inductive AuthResult where
  | rateLimited (code : Nat)
  | badRequest (code : Nat)
  | unauthorized (code : Nat)
  | success (code : Nat)
  deriving DecidableEq, Repr

/-- The control flow of `AdminAuth.authenticate` from
`src/middleware/adminAuth.js`: rate-limit check, missing-field check,
credential check (`adminService.validateCredentials`, abstracted to its
boolean outcome `credentialsOk`), and — on success — the limiter reset for
the client IP.  Session-row creation and cookie handling have no effect on
the limiter state and are outside this model. -/
def authenticate (attempts : AttemptMap) (ip : String)
    (hasUsername hasPassword credentialsOk : Bool)
    (now maxAttempts windowMs : Nat) : AuthResult × AttemptMap :=
  let (blocked, attempts1) := trackAttempt attempts ip now maxAttempts windowMs
  if blocked then (.rateLimited 429, attempts1)
  else if !hasUsername || !hasPassword then (.badRequest 400, attempts1)
  else if !credentialsOk then (.unauthorized 401, attempts1)
  else (.success 200, resetAttempts attempts1 ip)

/-! ### Admin sessions (`src/middleware/adminAuth.js`) -/

/-- A stored `AdminSession` row. -/
structure AdminSession where
  id : String
  adminUserId : String
  sessionTokenHash : String
  ipAddress : Option String
  userAgent : Option String
  createdAt : Nat
  lastSeenAt : Nat
  expiresAt : Nat
  revokedAt : Option Nat
  deriving DecidableEq, Repr

/-- The `req.adminSession` context assembled by `requireAuth`. -/
structure SessionContext where
  id : String
  adminUserId : String
  createdAt : Nat
  lastSeenAt : Nat
  expiresAt : Nat
  ip : Option String
  userAgent : Option String
  deriving DecidableEq, Repr

/-- Outcome of `AdminAuth.requireAuth`. -/
inductive RequireAuthResult where
  | unauthorized (code : Nat) (message : String)
  | ok (session : SessionContext) (admin : Option SanitizedAdmin)
  deriving DecidableEq, Repr

/-- `AdminAuth.requireAuth` from `src/middleware/adminAuth.js`, with the
presented token, the `sha256` token hash (`hashSessionToken`, abstracted to
an arbitrary function `hash`) and `new Date()` made explicit.  Returns the
result together with the updated session store. -/
def requireAuth (sessions : List AdminSession) (admins : List AdminUser)
    (token : Option String) (hash : String → String) (now : Nat) :
    RequireAuthResult × List AdminSession :=
  match token with
  | none => (.unauthorized 401 "Authentication required", sessions)
  | some tok =>
    let hashed := hash tok
    match sessions.find? (fun s => s.sessionTokenHash == hashed) with
    | none => (.unauthorized 401 "Invalid or expired session", sessions)
    | some s =>
      if s.revokedAt.isSome || s.expiresAt ≤ now then
        (.unauthorized 401 "Session expired",
         sessions.filter (fun x => !(x.id == s.id)))
      else
        let sessions' := sessions.map (fun x =>
          if x.id == s.id then { x with lastSeenAt := now } else x)
        (.ok { id := s.id, adminUserId := s.adminUserId,
               createdAt := s.createdAt, lastSeenAt := s.lastSeenAt,
               expiresAt := s.expiresAt, ip := s.ipAddress,
               userAgent := s.userAgent }
            ((admins.find? (fun a => a.id == s.adminUserId)).map sanitizeAdmin),
         sessions')

/-! ### Admin CRUD controller (`AdminController` in `src/controllers/keyController.js`)
and the service operations it calls (`src/services/adminService.js`) -/

/-- An `expires_at` field of an update request body: absent, falsy (cleared
to null), a parseable date, or a malformed date string. -/
inductive DateField where
  | clearIt
  | setTo (t : Nat)
  | malformed
  deriving DecidableEq, Repr

/-- The JSON body of `updateAdmin` after transport, before the controller's
field validation. -/
structure UpdateAdminBody where
  username : Option String
  password : Option String
  status : Option String
  expires_at : Option DateField
  is_permanent : Option Bool
  notes : Option (Option String)
  deriving DecidableEq, Repr

/-- The `updates` object the controller hands to
`adminService.updateAdmin`. -/
structure AdminUpdates where
  username : Option String
  password : Option String
  status : Option AdminStatus
  expiresAt : Option (Option Nat)
  isPermanent : Option Bool
  notes : Option (Option String)
  deriving DecidableEq, Repr

/-- `Object.keys(updates).length === 0` in the controller. -/
def AdminUpdates.isEmpty (u : AdminUpdates) : Bool :=
  u.username.isNone && u.password.isNone && u.status.isNone &&
    u.expiresAt.isNone && u.isPermanent.isNone && u.notes.isNone

/-- The field-validation phase of `AdminController.updateAdmin`
(`src/controllers/keyController.js`): builds `updates` or fails with 400.
`username` must trim to ≥ 3 chars, `password` must have ≥ 8 chars, `status`
must uppercase to ACTIVE or DISABLED, `expires_at` must be falsy or a valid
date, `is_permanent` is coerced with `Boolean(...)`, `notes` is trimmed when
a string and nulled otherwise. -/
def parseUpdateBody (b : UpdateAdminBody) : Option AdminUpdates :=
  let usernameOk :=
    match b.username with
    | none => true
    | some u => decide (3 ≤ (trimStr u).length)
  let passwordOk :=
    match b.password with
    | none => true
    | some p => decide (8 ≤ p.length)
  let statusParsed : Option (Option AdminStatus) :=
    match b.status with
    | none => some none
    | some st =>
      if toUpperStr st == "ACTIVE" then some (some AdminStatus.ACTIVE)
      else if toUpperStr st == "DISABLED" then some (some AdminStatus.DISABLED)
      else none
  let expiresParsed : Option (Option (Option Nat)) :=
    match b.expires_at with
    | none => some none
    | some .clearIt => some (some none)
    | some (.setTo t) => some (some (some t))
    | some .malformed => none
  if usernameOk then
    if passwordOk then
      match statusParsed, expiresParsed with
      | some st, some ex =>
        some { username := b.username.map trimStr
               password := b.password
               status := st
               expiresAt := ex
               isPermanent := b.is_permanent
               notes := b.notes.map (fun n => n.map trimStr) }
      | _, _ => none
    else none
  else none

/-- `adminService.updateAdmin(id, updates)`: the Prisma `update` data applied
to the stored row.  A supplied password is hashed (`hashPassword`, abstracted
as `hashPw`); Prisma's `@updatedAt` stamps `updatedAt = now`. -/
def applyAdminUpdates (u : AdminUpdates) (hashPw : String → String) (now : Nat)
    (a : AdminUser) : AdminUser :=
  { a with
    username := u.username.getD a.username
    passwordHash :=
      match u.password with
      | some p => hashPw p
      | none => a.passwordHash
    status := u.status.getD a.status
    expiresAt :=
      match u.expiresAt with
      | some e => e
      | none => a.expiresAt
    isPermanent := u.isPermanent.getD a.isPermanent
    notes :=
      match u.notes with
      | some n => n
      | none => a.notes
    updatedAt := now }

/-- Outcome of `AdminController.updateAdmin`. -/
inductive UpdateAdminResult where
  | badRequest (code : Nat) (message : String)
  | notFound (code : Nat)
  | updated (admin : SanitizedAdmin)
  deriving DecidableEq, Repr

/-- `AdminController.updateAdmin` from `src/controllers/keyController.js`:
field validation, empty-update check, target lookup, the permanent-admin
guards, then the service update. -/
def updateAdminCtrl (admins : List AdminUser) (id : String)
    (b : UpdateAdminBody) (hashPw : String → String) (now : Nat) :
    UpdateAdminResult × List AdminUser :=
  match parseUpdateBody b with
  | none => (.badRequest 400 "invalid field", admins)
  | some u =>
    if u.isEmpty then (.badRequest 400 "No valid fields to update", admins)
    else
      match admins.find? (fun a => a.id == id) with
      | none => (.notFound 404, admins)
      | some target =>
        if target.isPermanent && (u.status == some AdminStatus.DISABLED) then
          (.badRequest 400 "Cannot change status of permanent admin", admins)
        else if target.isPermanent && (u.isPermanent == some false) then
          (.badRequest 400 "Cannot unset permanent flag from permanent admin",
            admins)
        else
          let admins' := admins.map (fun a =>
            if a.id == id then applyAdminUpdates u hashPw now a else a)
          (.updated (sanitizeAdmin (applyAdminUpdates u hashPw now target)),
            admins')

/-- The three logical tables touched by admin deletion. -/
structure AdminStores where
  admins : List AdminUser
  sessions : List AdminSession
  keys : List AccessKey
  deriving DecidableEq, Repr

/-- `adminService.deleteAdmin(id)`: the transaction deleting the admin's
sessions, nulling `createdById` on the keys it created, and deleting the
row. -/
def deleteAdminService (s : AdminStores) (id : String) : AdminStores :=
  { admins := s.admins.filter (fun a => !(a.id == id))
    sessions := s.sessions.filter (fun x => !(x.adminUserId == id))
    keys := s.keys.map (fun k =>
      if k.createdById == some id then { k with createdById := none } else k) }

/-- `adminService.disableAdmin(id, reason, actorId)`: sets status DISABLED,
stamps `updatedAt`, and records a non-empty trimmed reason into `notes`. -/
def disableAdminService (admins : List AdminUser) (id : String)
    (reason : Option String) (now : Nat) : List AdminUser :=
  admins.map (fun a =>
    if a.id == id then
      { a with
        status := AdminStatus.DISABLED
        updatedAt := now
        notes :=
          match reason with
          | some r =>
            if (trimStr r).length > 0 then some (trimStr r) else a.notes
          | none => a.notes }
    else a)

/-- Outcome of `AdminController.deleteAdmin`. -/
inductive DeleteAdminResult where
  | badRequest (code : Nat) (message : String)
  | notFound (code : Nat)
  | deletedPermanently
  | disabled (admin : SanitizedAdmin)
  deriving DecidableEq, Repr

/-- `AdminController.deleteAdmin` from `src/controllers/keyController.js`:
self-delete check, target lookup, the permanent-admin guards on both the
hard-delete and the disable path, then the corresponding service call. -/
def deleteAdminCtrl (s : AdminStores) (id : String) (selfId : Option String)
    (hardDelete : Bool) (reason : Option String) (now : Nat) :
    DeleteAdminResult × AdminStores :=
  if selfId == some id then
    (.badRequest 400 "You cannot delete the active admin session", s)
  else
    match s.admins.find? (fun a => a.id == id) with
    | none => (.notFound 404, s)
    | some target =>
      if target.isPermanent && hardDelete then
        (.badRequest 400 "Cannot hard delete a permanent admin", s)
      else if hardDelete then
        (.deletedPermanently, deleteAdminService s id)
      else if target.isPermanent then
        (.badRequest 400 "Cannot disable a permanent admin", s)
      else
        (.disabled (sanitizeAdmin
            { target with
              status := AdminStatus.DISABLED
              updatedAt := now
              notes :=
                match reason with
                | some r =>
                  if (trimStr r).length > 0 then some (trimStr r)
                  else target.notes
                | none => target.notes }),
          { s with admins := disableAdminService s.admins id reason now })

/-! ### Helper lemmas -/

theorem filter_length_mono {α : Type} (p q : α → Bool) (l : List α)
    (h : ∀ x, p x = true → q x = true) :
    (l.filter p).length ≤ (l.filter q).length := by
  induction l with
  | nil => simp
  | cons a l ih =>
    by_cases hp : p a = true
    · simp [List.filter_cons, hp, h a hp]
      exact ih
    · simp only [Bool.not_eq_true] at hp
      simp only [List.filter_cons, hp]
      cases hq : q a <;> simp [hq]
      · exact ih
      · exact Nat.le_succ_of_le ih

theorem findFirst_aux_none (_p : AccessKey → Bool) (l : List AccessKey)
    (acc : Option AccessKey) :
    l.foldl
      (fun acc r =>
        match acc with
        | none => some r
        | some b => if b.createdAt < r.createdAt then some r else some b)
      acc = none → acc = none ∧ l = [] := by
  induction l generalizing acc with
  | nil => intro h; exact ⟨h, rfl⟩
  | cons a l ih =>
    intro h
    simp only [List.foldl_cons] at h
    have := ih _ h
    cases acc with
    | none => simp at this
    | some b =>
      simp only at this
      split at this <;> simp at this

theorem findFirst_aux_some (_p : AccessKey → Bool) (l : List AccessKey)
    (acc : Option AccessKey) (P : AccessKey → Prop)
    (hacc : ∀ x, acc = some x → P x) (hl : ∀ x ∈ l, P x) :
    ∀ y, l.foldl
      (fun acc r =>
        match acc with
        | none => some r
        | some b => if b.createdAt < r.createdAt then some r else some b)
      acc = some y → P y := by
  induction l generalizing acc with
  | nil => intro y h; exact hacc y h
  | cons a l ih =>
    intro y h
    simp only [List.foldl_cons] at h
    refine ih _ ?_ (fun x hx => hl x (List.mem_cons_of_mem a hx)) y h
    intro x hx
    cases acc with
    | none =>
      simp only [Option.some.injEq] at hx
      exact hx ▸ hl a (List.mem_cons_self a l)
    | some b =>
      simp only at hx
      split at hx
      · exact (Option.some.injEq _ _ ▸ hx) ▸ hl a (List.mem_cons_self a l)
      · exact hacc x hx

/-- `findFirstByCreatedAtDesc` returns `none` exactly when no row matches. -/
theorem findFirst_eq_none_iff (p : AccessKey → Bool) (store : List AccessKey) :
    findFirstByCreatedAtDesc p store = none ↔ store.filter p = [] := by
  constructor
  · intro h
    exact (findFirst_aux_none p (store.filter p) none h).2
  · intro h
    simp [findFirstByCreatedAtDesc, h]

/-- A row returned by `findFirstByCreatedAtDesc` is a stored row matching the
predicate. -/
theorem findFirst_some_mem (p : AccessKey → Bool) (store : List AccessKey)
    (r : AccessKey) (h : findFirstByCreatedAtDesc p store = some r) :
    r ∈ store ∧ p r = true := by
  have := findFirst_aux_some p (store.filter p) none (· ∈ store.filter p)
    (by intro x hx; simp at hx) (fun x hx => hx) r h
  exact (List.mem_filter.mp this).imp id (fun h => h)

/-- A row matching the Prisma active-query clause is accepted by
`isKeyValid` on its mapped view (same instant). -/
theorem activeRowPred_isKeyValid (userId : String) (now : Nat) (r : AccessKey)
    (h : activeRowPred userId now r = true) :
    isKeyValid (mapAccessKeyRecord r) now = true := by
  simp only [activeRowPred, Bool.and_eq_true, beq_iff_eq] at h
  simp [isKeyValid, mapAccessKeyRecord, h.1.2, KeyStatus.toLowerString, h.2]

/-- `getActiveKeyForUser` returns `none` exactly when no stored row for the
user is ACTIVE and unexpired. -/
theorem getActiveKeyForUser_eq_none_iff (store : List AccessKey)
    (userId : String) (now : Nat) :
    getActiveKeyForUser store userId now = none ↔
      store.filter (activeRowPred userId now) = [] := by
  unfold getActiveKeyForUser
  cases h : findFirstByCreatedAtDesc (activeRowPred userId now) store with
  | none =>
    simp [(findFirst_eq_none_iff _ _).mp h]
  | some r =>
    have hmem := findFirst_some_mem _ _ _ h
    simp only [activeRowPred_isKeyValid userId now r hmem.2, if_pos rfl]
    constructor
    · intro hc; cases hc
    · intro hnil
      exfalso
      have : r ∈ store.filter (activeRowPred userId now) :=
        List.mem_filter.mpr ⟨hmem.1, hmem.2⟩
      rw [hnil] at this
      cases this

/-- When some stored row for the user is ACTIVE and unexpired,
`getActiveKeyForUser` returns the mapped view of such a row. -/
theorem getActiveKeyForUser_of_exists (store : List AccessKey)
    (userId : String) (now : Nat) (r₀ : AccessKey) (hmem : r₀ ∈ store)
    (hpred : activeRowPred userId now r₀ = true) :
    ∃ r ∈ store, activeRowPred userId now r = true ∧
      getActiveKeyForUser store userId now = some (mapAccessKeyRecord r) := by
  cases h : findFirstByCreatedAtDesc (activeRowPred userId now) store with
  | none =>
    exfalso
    have hnil := (findFirst_eq_none_iff _ _).mp h
    have : r₀ ∈ store.filter (activeRowPred userId now) :=
      List.mem_filter.mpr ⟨hmem, hpred⟩
    rw [hnil] at this
    cases this
  | some r =>
    have hm := findFirst_some_mem _ _ _ h
    refine ⟨r, hm.1, hm.2, ?_⟩
    unfold getActiveKeyForUser
    rw [h]
    simp [activeRowPred_isKeyValid userId now r hm.2]

/-- The Prisma active-count clause and `isKeyValid` on the mapped view agree
row by row. -/
theorem statusActivePred_eq (r : AccessKey) (now : Nat) :
    (r.status == KeyStatus.ACTIVE && decide (now < r.expiresAt)) =
      isKeyValid (mapAccessKeyRecord r) now := by
  cases hs : r.status <;>
    simp [isKeyValid, mapAccessKeyRecord, KeyStatus.toLowerString, hs]

/-! ### Claim theorems -/

/-- C9: the stats aggregator's active count (the Prisma query
`status = ACTIVE ∧ expiresAt > now` over stored timestamps) counts exactly
the keys that `validateKey` would accept as valid at the same instant via
`isKeyValid` on the lowercased-status mapped view: the two embeddings of the
"active" predicate are equal row by row, hence the counts coincide on every
store. -/
theorem C9_stats_validate_agreement :
    (∀ (r : AccessKey) (now : Nat),
      (r.status == KeyStatus.ACTIVE && decide (now < r.expiresAt)) =
        isKeyValid (mapAccessKeyRecord r) now) ∧
    (∀ (store : List AccessKey) (now : Nat),
      getActiveKeysCount store now =
        (store.filter (fun r => isKeyValid (mapAccessKeyRecord r) now)).length) := by
  refine ⟨statusActivePred_eq, ?_⟩
  intro store now
  unfold getActiveKeysCount
  congr 1
  induction store with
  | nil => rfl
  | cons a l ih =>
    simp only [List.filter_cons, statusActivePred_eq a now, ih]

/-- C3: `validateKey` on a stored key computes
`valid = (status = ACTIVE) ∧ (expires_at > now)` (strict comparison, so an
expiry in the past — by any margin — is invalid and an expiry in the future
is valid) and returns code 200 when valid and 410 when invalid; for a
`key_id` with no stored row it returns a 404 not-found result and leaves the
store unchanged. -/
theorem C3_validateKey_outcome (store : List AccessKey) (keyId : String)
    (now : Nat) :
    (store.find? (fun r => r.keyId == keyId) = none →
      validateKey store keyId now = (.notFound 404, store)) ∧
    (∀ r : AccessKey, store.find? (fun r' => r'.keyId == keyId) = some r →
      ∃ body : ValidateOk, (validateKey store keyId now).1 = .ok body ∧
        body.valid = (r.status == KeyStatus.ACTIVE && decide (now < r.expiresAt)) ∧
        body.code =
          (if r.status == KeyStatus.ACTIVE && decide (now < r.expiresAt)
           then 200 else 410)) := by
  constructor
  · intro hnone
    unfold validateKey getKeyById
    rw [hnone]
    rfl
  · intro r hfind
    unfold validateKey getKeyById
    rw [hfind]
    simp only [Option.map_some']
    rw [← statusActivePred_eq r now]
    cases hv : (r.status == KeyStatus.ACTIVE && decide (now < r.expiresAt)) <;>
      simp [hv]

/-- C5 counterexample: a supplied `hours` of 169 (one above the configured
maximum 168) is not clamped to 168 as the claim states — the create-key
validation middleware rejects it with code 400. -/
theorem C5_hours_clamp_counterexample :
    validateCreateKeyHours (some 169) = HoursValidation.rejected 400 ∧
    validateCreateKeyHours (some 169) ≠ HoursValidation.accepted 168 := by
  constructor
  · rfl
  · decide

/-- C5 (amended): on a create-key request, an omitted `hours` field is
replaced by the configured default (24); a supplied `hours` value is parsed
as an integer and must lie in the configured range 1–168: in-range values
are used as-is and out-of-range values are rejected with 400 rather than
clamped; any accepted value `h` yields `expires_at = now + h` hours. -/
theorem C5_hours_input_handling (h : Option Int) (now : Nat) :
    validateCreateKeyHours none = .accepted defaultKeyHours ∧
    (∀ z : Int, 1 ≤ z → z ≤ (maxKeyHours : Int) →
      validateCreateKeyHours (some z) = .accepted z.toNat) ∧
    (∀ z : Int, z ≤ 0 ∨ (maxKeyHours : Int) < z →
      validateCreateKeyHours (some z) = .rejected 400) ∧
    (∀ hrs : Nat, validateCreateKeyHours h = .accepted hrs →
      getExpirationDate hrs now = some (now + hrs * msPerHour)) := by
  refine ⟨rfl, ?_, ?_, ?_⟩
  · intro z h1 h2
    have hc : ¬((z ≤ 0 || z > (maxKeyHours : Int)) = true) := by
      rw [Bool.or_eq_true]
      simp only [decide_eq_true_eq, maxKeyHours] at h2 ⊢
      omega
    simp only [validateCreateKeyHours]
    rw [if_neg hc]
  · intro z hz
    have hc : (z ≤ 0 || z > (maxKeyHours : Int)) = true := by
      rw [Bool.or_eq_true]
      simp only [decide_eq_true_eq, maxKeyHours] at hz ⊢
      omega
    simp only [validateCreateKeyHours]
    rw [if_pos hc]
  · intro hrs hacc
    have h1 : 1 ≤ hrs := by
      cases h with
      | none =>
        simp only [validateCreateKeyHours, HoursValidation.accepted.injEq,
          defaultKeyHours] at hacc
        omega
      | some z =>
        simp only [validateCreateKeyHours] at hacc
        by_cases hc : (z ≤ 0 || z > (maxKeyHours : Int)) = true
        · rw [if_pos hc] at hacc
          exact absurd hacc (by intro hx; cases hx)
        · rw [if_neg hc] at hacc
          have hz := HoursValidation.accepted.inj hacc
          rw [Bool.or_eq_true] at hc
          simp only [decide_eq_true_eq, not_or, not_le, not_lt,
            maxKeyHours] at hc
          omega
    unfold getExpirationDate
    rw [if_neg (by omega)]

/-- C3 witness: on a store holding the single key `k0` for `alice`, ACTIVE
and expiring at instant 2000, `validateKey` at instant 1000 reports a valid
key. -/
theorem C3_validateKey_outcome_witness :
    ∃ body : ValidateOk,
      (validateKey
        [{ keyId := "k0", userId := "alice", status := KeyStatus.ACTIVE,
           createdAt := 0, expiresAt := 2000, lastAccessed := none,
           usageCount := 0, ipAddress := none, createdById := none }]
        "k0" 1000).1 = .ok body ∧
      body.valid =
        ((KeyStatus.ACTIVE == KeyStatus.ACTIVE) && decide ((1000 : Nat) < 2000)) ∧
      body.code =
        (if (KeyStatus.ACTIVE == KeyStatus.ACTIVE) && decide ((1000 : Nat) < 2000)
         then 200 else 410) :=
  (C3_validateKey_outcome
    [{ keyId := "k0", userId := "alice", status := KeyStatus.ACTIVE,
       createdAt := 0, expiresAt := 2000, lastAccessed := none,
       usageCount := 0, ipAddress := none, createdById := none }]
    "k0" 1000).2
    { keyId := "k0", userId := "alice", status := KeyStatus.ACTIVE,
      createdAt := 0, expiresAt := 2000, lastAccessed := none,
      usageCount := 0, ipAddress := none, createdById := none }
    (by decide)

/-- C5 witness: the default applies when `hours` is omitted, 24 is accepted
as-is, 200 is rejected with 400, and an accepted value fixes the expiry
offset. -/
theorem C5_hours_input_handling_witness :
    validateCreateKeyHours none = HoursValidation.accepted defaultKeyHours ∧
    validateCreateKeyHours (some 24) = HoursValidation.accepted ((24 : Int).toNat) ∧
    validateCreateKeyHours (some 200) = HoursValidation.rejected 400 ∧
    getExpirationDate 24 0 = some (0 + 24 * msPerHour) :=
  ⟨(C5_hours_input_handling none 0).1,
   (C5_hours_input_handling none 0).2.1 24 (by decide) (by decide),
   (C5_hours_input_handling none 0).2.2.1 200 (Or.inr (by decide)),
   (C5_hours_input_handling (some 24) 0).2.2.2 24 (by decide)⟩

/-- C2: `createKey` on a store with no unexpired ACTIVE key for the user
inserts exactly one new row — fresh `key_id`, status ACTIVE, `usage_count`
0, `expires_at = now + hours` — and returns the new key's id, owner, expiry
and the hours used; when an unexpired ACTIVE key exists it returns a 409
conflict carrying that key's id, owner, expiry and remaining-time breakdown
and inserts nothing. -/
theorem C2_createKey_behaviour (store : List AccessKey) (userId : String)
    (hours : Nat) (ip createdById : Option String) (now : Nat)
    (freshKeyId : String) (hhours : 1 ≤ hours) :
    ((∀ r ∈ store, activeRowPred userId now r = false) →
      createKey store userId hours ip createdById now freshKeyId =
        (.created freshKeyId userId (now + hours * msPerHour) hours,
          store ++
            [{ keyId := freshKeyId, userId := userId,
               status := KeyStatus.ACTIVE, createdAt := now,
               expiresAt := now + hours * msPerHour, lastAccessed := none,
               usageCount := 0, ipAddress := ip,
               createdById := createdById }])) ∧
    ((∃ r ∈ store, activeRowPred userId now r = true) →
      ∃ r ∈ store, activeRowPred userId now r = true ∧
        createKey store userId hours ip createdById now freshKeyId =
          (.conflict 409
            { key_id := (mapAccessKeyRecord r).key_id
              user_id := (mapAccessKeyRecord r).user_id
              expires_at := (mapAccessKeyRecord r).expires_at
              time_remaining :=
                getRemainingTime (mapAccessKeyRecord r).expires_at now },
            store)) := by
  constructor
  · intro hnone
    have hnil : store.filter (activeRowPred userId now) = [] :=
      List.filter_eq_nil_iff.mpr (fun a ha => by simp [hnone a ha])
    have hga : getActiveKeyForUser store userId now = none :=
      (getActiveKeyForUser_eq_none_iff store userId now).mpr hnil
    unfold createKey
    rw [hga]
    unfold getExpirationDate
    rw [if_neg (by omega)]
  · rintro ⟨r₀, hmem₀, hpred₀⟩
    obtain ⟨r, hmem, hpred, hga⟩ :=
      getActiveKeyForUser_of_exists store userId now r₀ hmem₀ hpred₀
    refine ⟨r, hmem, hpred, ?_⟩
    unfold createKey
    rw [hga]

/-- C2 witness: creating for `alice` on the empty store inserts the new row;
creating again on the resulting store conflicts with code 409. -/
theorem C2_createKey_behaviour_witness :
    (createKey [] "alice" 1 none none 0 "f1" =
      (.created "f1" "alice" (0 + 1 * msPerHour) 1,
        [] ++
          [{ keyId := "f1", userId := "alice", status := KeyStatus.ACTIVE,
             createdAt := 0, expiresAt := 0 + 1 * msPerHour,
             lastAccessed := none, usageCount := 0, ipAddress := none,
             createdById := none }])) ∧
    (∃ r ∈ [{ keyId := "f1", userId := "alice",
              status := KeyStatus.ACTIVE, createdAt := 0,
              expiresAt := 0 + 1 * msPerHour, lastAccessed := none,
              usageCount := 0, ipAddress := none,
              createdById := none }],
      activeRowPred "alice" 0 r = true ∧
        createKey [{ keyId := "f1", userId := "alice",
                     status := KeyStatus.ACTIVE, createdAt := 0,
                     expiresAt := 0 + 1 * msPerHour, lastAccessed := none,
                     usageCount := 0, ipAddress := none,
                     createdById := none }] "alice" 1 none none 0 "f2" =
          (.conflict 409
            { key_id := (mapAccessKeyRecord r).key_id
              user_id := (mapAccessKeyRecord r).user_id
              expires_at := (mapAccessKeyRecord r).expires_at
              time_remaining :=
                getRemainingTime (mapAccessKeyRecord r).expires_at 0 },
            [{ keyId := "f1", userId := "alice",
               status := KeyStatus.ACTIVE, createdAt := 0,
               expiresAt := 0 + 1 * msPerHour, lastAccessed := none,
               usageCount := 0, ipAddress := none,
               createdById := none }])) :=
  ⟨(C2_createKey_behaviour [] "alice" 1 none none 0 "f1" (by decide)).1
      (by intro r hr; cases hr),
   (C2_createKey_behaviour
      [{ keyId := "f1", userId := "alice", status := KeyStatus.ACTIVE,
         createdAt := 0, expiresAt := 0 + 1 * msPerHour,
         lastAccessed := none, usageCount := 0, ipAddress := none,
         createdById := none }] "alice" 1 none none 0 "f2" (by decide)).2
      ⟨{ keyId := "f1", userId := "alice", status := KeyStatus.ACTIVE,
         createdAt := 0, expiresAt := 0 + 1 * msPerHour,
         lastAccessed := none, usageCount := 0, ipAddress := none,
         createdById := none }, by decide, by decide⟩⟩

/-- Advancing the clock can only shrink the business-active set. -/
theorem activeKeysFor_advance_le (store : List AccessKey) (u : String)
    (now delta : Nat) :
    activeKeysFor store u (now + delta) ≤ activeKeysFor store u now := by
  unfold activeKeysFor
  refine filter_length_mono _ _ store ?_
  intro r h
  simp only [activeRowPred, Bool.and_eq_true, decide_eq_true_eq] at h ⊢
  exact ⟨h.1, by omega⟩

/-- Hard deletion can only shrink the business-active set. -/
theorem activeKeysFor_delete_le (store : List AccessKey) (keyId u : String)
    (now : Nat) :
    activeKeysFor (deleteKey store keyId).2 u now ≤ activeKeysFor store u now := by
  unfold deleteKey
  by_cases h : store.any (fun r => r.keyId == keyId)
  · simp only [h, if_pos]
    unfold activeKeysFor
    exact ((List.filter_sublist store).filter _).length_le
  · simp only [h]
    simp

/-- `createKey` preserves the single-active-key invariant. -/
theorem createKey_preserves_inv (store : List AccessKey) (userId : String)
    (hours : Nat) (ip createdById : Option String) (now : Nat)
    (freshKeyId : String) (hinv : SingleActiveInv store now) :
    SingleActiveInv
      (createKey store userId hours ip createdById now freshKeyId).2 now := by
  unfold createKey
  cases hga : getActiveKeyForUser store userId now with
  | some e => exact hinv
  | none =>
    cases hexp : getExpirationDate hours now with
    | none => exact hinv
    | some expiresAt =>
      intro u
      have hnil : store.filter (activeRowPred userId now) = [] :=
        (getActiveKeyForUser_eq_none_iff store userId now).mp hga
      simp only [activeKeysFor, List.filter_append, List.length_append]
      by_cases hu : u = userId
      · subst hu
        have h0 : (store.filter (activeRowPred u now)).length = 0 := by
          rw [hnil]; rfl
        rw [h0]
        simp [List.filter]
        split <;> simp
      · have hnew : activeRowPred u now
            { keyId := freshKeyId, userId := userId,
              status := KeyStatus.ACTIVE, createdAt := now,
              expiresAt := expiresAt, lastAccessed := none, usageCount := 0,
              ipAddress := ip, createdById := createdById } = false := by
          simp only [activeRowPred, Bool.and_eq_false_iff]
          left; left
          simp only [beq_eq_false_iff_ne, ne_eq]
          exact fun hc => hu hc.symm
        simp only [List.filter, hnew]
        simpa using hinv u

/-- Every single lifecycle step preserves the invariant. -/
theorem step_preserves_inv (s : List AccessKey × Nat) (op : Op)
    (hinv : SingleActiveInv s.1 s.2) :
    SingleActiveInv (step s op).1 (step s op).2 := by
  obtain ⟨store, now⟩ := s
  cases op with
  | create userId hours ip createdById freshKeyId =>
    exact createKey_preserves_inv store userId hours ip createdById now
      freshKeyId hinv
  | advance delta =>
    intro u
    exact le_trans (activeKeysFor_advance_le store u now delta) (hinv u)
  | delete keyId =>
    intro u
    exact le_trans (activeKeysFor_delete_le store keyId u now) (hinv u)

/-- C1: for every `user_id`, after any sequence of key-creation, lazy-expiry
(clock-advance) and deletion operations run sequentially, at most one stored
row is simultaneously ACTIVE and unexpired; in particular `createKey`
returns a 409 conflict and inserts nothing whenever an ACTIVE unexpired row
already exists for the requested user. -/
theorem C1_single_active_key :
    (∀ (ops : List Op) (store : List AccessKey) (now : Nat),
      SingleActiveInv store now →
      SingleActiveInv (run ops (store, now)).1 (run ops (store, now)).2) ∧
    (∀ (store : List AccessKey) (userId : String) (hours : Nat)
       (ip createdById : Option String) (now : Nat) (freshKeyId : String),
      1 ≤ activeKeysFor store userId now →
      ∃ data : ConflictData,
        createKey store userId hours ip createdById now freshKeyId =
          (.conflict 409 data, store)) := by
  constructor
  · intro ops
    induction ops with
    | nil => intro store now hinv; exact hinv
    | cons op ops ih =>
      intro store now hinv
      have h1 := step_preserves_inv (store, now) op hinv
      have := ih (step (store, now) op).1 (step (store, now) op).2 h1
      simpa [run, List.foldl_cons] using this
  · intro store userId hours ip createdById now freshKeyId hcount
    have hex : ∃ r, r ∈ store.filter (activeRowPred userId now) :=
      List.length_pos_iff_exists_mem.mp (by unfold activeKeysFor at hcount; omega)
    obtain ⟨r₀, hr₀⟩ := hex
    have hm := List.mem_filter.mp hr₀
    obtain ⟨r, _, _, hga⟩ :=
      getActiveKeyForUser_of_exists store userId now r₀ hm.1 hm.2
    refine ⟨{ key_id := (mapAccessKeyRecord r).key_id
              user_id := (mapAccessKeyRecord r).user_id
              expires_at := (mapAccessKeyRecord r).expires_at
              time_remaining :=
                getRemainingTime (mapAccessKeyRecord r).expires_at now }, ?_⟩
    unfold createKey
    rw [hga]

/-- C1 witness: running a create/advance/delete sequence from the empty
store keeps the invariant, and a second create for `alice` against a store
already holding her active key conflicts with 409 and inserts nothing. -/
theorem C1_single_active_key_witness :
    SingleActiveInv
      (run [Op.create "alice" 1 none none "f1", Op.advance 5,
            Op.delete "f1"] ([], 0)).1
      (run [Op.create "alice" 1 none none "f1", Op.advance 5,
            Op.delete "f1"] ([], 0)).2 ∧
    ∃ data : ConflictData,
      createKey
        [{ keyId := "f1", userId := "alice", status := KeyStatus.ACTIVE,
           createdAt := 0, expiresAt := 3600000, lastAccessed := none,
           usageCount := 0, ipAddress := none, createdById := none }]
        "alice" 1 none none 0 "f2" =
        (.conflict 409 data,
          [{ keyId := "f1", userId := "alice", status := KeyStatus.ACTIVE,
             createdAt := 0, expiresAt := 3600000, lastAccessed := none,
             usageCount := 0, ipAddress := none, createdById := none }]) :=
  ⟨C1_single_active_key.1 _ [] 0
      (fun u => by simp [activeKeysFor]),
   C1_single_active_key.2
      [{ keyId := "f1", userId := "alice", status := KeyStatus.ACTIVE,
         createdAt := 0, expiresAt := 3600000, lastAccessed := none,
         usageCount := 0, ipAddress := none, createdById := none }]
      "alice" 1 none none 0 "f2" (by decide)⟩

/-- The store component of one `validateKey` call. -/
def validateStep (keyId : String) (now : Nat) (store : List AccessKey) :
    List AccessKey :=
  (validateKey store keyId now).2

/-- Reading a key back after `bumpUsage` sees the incremented count and the
refreshed access time. -/
theorem getKeyById_bumpUsage (store : List AccessKey) (keyId : String)
    (now : Nat) :
    getKeyById (bumpUsage keyId now store) keyId =
      (getKeyById store keyId).map
        (fun m => { m with
            usage_count := m.usage_count + 1
            last_accessed := some now }) := by
  induction store with
  | nil => rfl
  | cons a l ih =>
    unfold bumpUsage at ih ⊢
    unfold getKeyById at ih ⊢
    cases h : (a.keyId == keyId) with
    | true =>
      simp [List.find?, h, mapAccessKeyRecord]
    | false =>
      simpa [List.find?, h] using ih

/-- Rows with a different `key_id` survive `bumpUsage` unchanged. -/
theorem mem_bumpUsage_of_ne (store : List AccessKey) (keyId : String)
    (now : Nat) (r : AccessKey) (hmem : r ∈ store) (hne : r.keyId ≠ keyId) :
    r ∈ bumpUsage keyId now store := by
  unfold bumpUsage
  have := List.mem_map_of_mem (fun x : AccessKey =>
    if x.keyId == keyId then
      { x with usageCount := x.usageCount + 1, lastAccessed := some now }
    else x) hmem
  simpa [hne] using this

/-- `validateKey` on a found, valid key: the 200 body with the
post-increment count, and the bumped store. -/
theorem validateKey_valid_eq (store : List AccessKey) (keyId : String)
    (now : Nat) (key : MappedKey) (hk : getKeyById store keyId = some key)
    (hv : isKeyValid key now = true) :
    validateKey store keyId now =
      (.ok { valid := true, key_id := keyId, user_id := key.user_id,
             status := key.status, created_at := key.created_at,
             expires_at := key.expires_at,
             time_remaining := getRemainingTime key.expires_at now,
             usage_count := key.usage_count + 1, code := 200 },
        bumpUsage keyId now store) := by
  unfold validateKey
  rw [hk]
  simp only [hv, if_pos]
  rw [getKeyById_bumpUsage store keyId now, hk]
  rfl

/-- `validateKey` on a found, invalid key: the 410 body with the stored
count, and the store untouched. -/
theorem validateKey_invalid_eq (store : List AccessKey) (keyId : String)
    (now : Nat) (key : MappedKey) (hk : getKeyById store keyId = some key)
    (hv : isKeyValid key now = false) :
    validateKey store keyId now =
      (.ok { valid := false, key_id := keyId, user_id := key.user_id,
             status := key.status, created_at := key.created_at,
             expires_at := key.expires_at,
             time_remaining := getRemainingTime key.expires_at now,
             usage_count := key.usage_count, code := 410 }, store) := by
  unfold validateKey
  rw [hk]
  simp only [hv]
  rfl

/-- C4: a successful validation increments the stored key's `usage_count` by
exactly one, stamps `last_accessed = now`, and returns the post-increment
count, leaving rows with other key ids untouched; N successful validations
of a still-valid key raise the count by exactly N; validating an expired or
inactive key mutates nothing and returns the stored count. -/
theorem C4_usage_accounting (store : List AccessKey) (keyId : String)
    (now : Nat) (key : MappedKey) (hk : getKeyById store keyId = some key) :
    (isKeyValid key now = false →
      validateKey store keyId now =
        (.ok { valid := false, key_id := keyId, user_id := key.user_id,
               status := key.status, created_at := key.created_at,
               expires_at := key.expires_at,
               time_remaining := getRemainingTime key.expires_at now,
               usage_count := key.usage_count, code := 410 }, store)) ∧
    (isKeyValid key now = true →
      (validateKey store keyId now).1 =
        .ok { valid := true, key_id := keyId, user_id := key.user_id,
              status := key.status, created_at := key.created_at,
              expires_at := key.expires_at,
              time_remaining := getRemainingTime key.expires_at now,
              usage_count := key.usage_count + 1, code := 200 } ∧
      getKeyById (validateKey store keyId now).2 keyId =
        some { key with
            usage_count := key.usage_count + 1
            last_accessed := some now } ∧
      (∀ r ∈ store, r.keyId ≠ keyId → r ∈ (validateKey store keyId now).2)) ∧
    (isKeyValid key now = true → ∀ N : Nat,
      getKeyById (Nat.iterate (validateStep keyId now) N store) keyId =
        some { key with
            usage_count := key.usage_count + N
            last_accessed := if N = 0 then key.last_accessed else some now }) := by
  refine ⟨fun hv => validateKey_invalid_eq store keyId now key hk hv,
    fun hv => ?_, fun hv => ?_⟩
  · have heq := validateKey_valid_eq store keyId now key hk hv
    refine ⟨by rw [heq], ?_, ?_⟩
    · rw [heq]
      rw [getKeyById_bumpUsage store keyId now, hk]
      rfl
    · intro r hmem hne
      rw [heq]
      exact mem_bumpUsage_of_ne store keyId now r hmem hne
  · intro N
    induction N with
    | zero =>
      simpa using hk
    | succ n ih =>
      rw [Function.iterate_succ_apply']
      have hvn : isKeyValid
          { key with
              usage_count := key.usage_count + n
              last_accessed := if n = 0 then key.last_accessed else some now }
          now = true := hv
      have heq := validateKey_valid_eq _ keyId now _ ih hvn
      have hstep : validateStep keyId now
          (Nat.iterate (validateStep keyId now) n store) =
          bumpUsage keyId now (Nat.iterate (validateStep keyId now) n store) := by
        show (validateKey (Nat.iterate (validateStep keyId now) n store)
          keyId now).2 = _
        rw [heq]
      rw [hstep, getKeyById_bumpUsage _ keyId now, ih]
      simp only [Option.map_some', Option.some.injEq, Nat.succ_ne_zero,
        if_false]
      rw [Nat.add_assoc]

/-- C4 witness: validating `alice`'s fresh, valid key at instant 1000 raises
its count from 0 to 1, stamps the access time, and two iterated validations
reach count 2. -/
theorem C4_usage_accounting_witness :
    ((validateKey
        [{ keyId := "k0", userId := "alice", status := KeyStatus.ACTIVE,
           createdAt := 0, expiresAt := 2000, lastAccessed := none,
           usageCount := 0, ipAddress := none, createdById := none }]
        "k0" 1000).1 =
      .ok { valid := true, key_id := "k0", user_id := "alice",
            status := (KeyStatus.ACTIVE).toLowerString, created_at := 0,
            expires_at := 2000,
            time_remaining := getRemainingTime 2000 1000,
            usage_count := 0 + 1, code := 200 }) ∧
    (getKeyById
        (Nat.iterate (validateStep "k0" 1000) 2
          [{ keyId := "k0", userId := "alice", status := KeyStatus.ACTIVE,
             createdAt := 0, expiresAt := 2000, lastAccessed := none,
             usageCount := 0, ipAddress := none, createdById := none }])
        "k0" =
      some { id_field := 0, key_id := "k0", user_id := "alice",
             status := (KeyStatus.ACTIVE).toLowerString, created_at := 0,
             expires_at := 2000, last_accessed := some 1000,
             usage_count := 0 + 2, ip_address := none,
             created_by := none }) := by
  constructor
  · exact ((C4_usage_accounting
      [{ keyId := "k0", userId := "alice", status := KeyStatus.ACTIVE,
         createdAt := 0, expiresAt := 2000, lastAccessed := none,
         usageCount := 0, ipAddress := none, createdById := none }]
      "k0" 1000
      { id_field := 0, key_id := "k0", user_id := "alice",
        status := (KeyStatus.ACTIVE).toLowerString, created_at := 0,
        expires_at := 2000, last_accessed := none, usage_count := 0,
        ip_address := none, created_by := none }
      (by decide)).2.1 (by decide)).1
  · exact (C4_usage_accounting
      [{ keyId := "k0", userId := "alice", status := KeyStatus.ACTIVE,
         createdAt := 0, expiresAt := 2000, lastAccessed := none,
         usageCount := 0, ipAddress := none, createdById := none }]
      "k0" 1000
      { id_field := 0, key_id := "k0", user_id := "alice",
        status := (KeyStatus.ACTIVE).toLowerString, created_at := 0,
        expires_at := 2000, last_accessed := none, usage_count := 0,
        ip_address := none, created_by := none }
      (by decide)).2.2 (by decide) 2

/-- Auxiliary: replacing the value of a present key is seen by `find?`. -/
theorem find?_mapSet_replace (m : AttemptMap) (k : String) (v : AttemptRecord)
    (h : m.any (fun p => p.1 == k) = true) :
    (m.map (fun p => if p.1 == k then (k, v) else p)).find?
      (fun p => p.1 == k) = some (k, v) := by
  induction m with
  | nil => simp at h
  | cons p l ih =>
    cases hp : (p.1 == k) with
    | true => simp [List.find?, hp]
    | false =>
      have hl : l.any (fun p => p.1 == k) = true := by
        simp only [List.any_cons, hp, Bool.false_or] at h
        exact h
      simpa [List.find?, hp] using ih hl

/-- Auxiliary: appending a binding for an absent key is seen by `find?`. -/
theorem find?_mapSet_append (m : AttemptMap) (k : String) (v : AttemptRecord)
    (h : m.any (fun p => p.1 == k) = false) :
    (m ++ [(k, v)]).find? (fun p => p.1 == k) = some (k, v) := by
  induction m with
  | nil => simp [List.find?]
  | cons p l ih =>
    have hp : (p.1 == k) = false := by
      simp only [List.any_cons, Bool.or_eq_false_iff] at h
      exact h.1
    have hl : l.any (fun p => p.1 == k) = false := by
      simp only [List.any_cons, Bool.or_eq_false_iff] at h
      exact h.2
    rw [List.cons_append, List.find?]
    simp only [hp]
    exact ih hl

/-- A `Map.set` on a key is observed by `Map.get`. -/
theorem mapGet_mapSet_self (m : AttemptMap) (k : String) (v : AttemptRecord) :
    mapGet (mapSet m k v) k = some v := by
  unfold mapGet mapSet
  by_cases h : m.any (fun p => p.1 == k) = true
  · rw [if_pos h, find?_mapSet_replace m k v h]
  · rw [if_neg h]
    have hb : m.any (fun p => p.1 == k) = false := by
      cases hb2 : m.any (fun p => p.1 == k) with
      | false => rfl
      | true => exact absurd hb2 h
    rw [find?_mapSet_append m k v hb]

/-- A `Map.delete` removes the key from `Map.get`'s view. -/
theorem mapGet_mapDelete_self (m : AttemptMap) (k : String) :
    mapGet (mapDelete m k) k = none := by
  unfold mapGet mapDelete
  induction m with
  | nil => rfl
  | cons p l ih =>
    cases hp : (p.1 == k) with
    | true =>
      simpa [List.filter_cons, hp] using ih
    | false =>
      simp only [List.filter_cons, hp, Bool.not_false, if_pos]
      rw [List.find?]
      simp only [hp]
      exact ih

/-- C6: the per-IP login limiter first resets a counter whose window has
lapsed, rejects with 429 — before any credential check, hence even for
correct credentials — once the counter has reached `maxAttempts`, otherwise
increments the counter and lets the attempt proceed; a successful
authentication deletes the IP's record, and once the window has elapsed a
correct login succeeds again. -/
theorem C6_login_rate_limiting (attempts : AttemptMap) (ip : String)
    (now maxAttempts windowMs : Nat) (rec : AttemptRecord) (hip : ip ≠ "") :
    (mapGet attempts ip = some rec → windowMs < now - rec.firstAt →
      1 ≤ maxAttempts →
      trackAttempt attempts ip now maxAttempts windowMs =
        (false, mapSet attempts ip { count := 1, firstAt := now })) ∧
    (mapGet attempts ip = some rec → ¬(windowMs < now - rec.firstAt) →
      maxAttempts ≤ rec.count →
      ∀ hasUsername hasPassword credentialsOk : Bool,
      authenticate attempts ip hasUsername hasPassword credentialsOk now
          maxAttempts windowMs =
        (.rateLimited 429, mapSet attempts ip rec)) ∧
    (mapGet attempts ip = some rec → ¬(windowMs < now - rec.firstAt) →
      rec.count < maxAttempts →
      trackAttempt attempts ip now maxAttempts windowMs =
        (false,
          mapSet attempts ip
            { count := rec.count + 1, firstAt := rec.firstAt }) ∧
      mapGet (trackAttempt attempts ip now maxAttempts windowMs).2 ip =
        some { count := rec.count + 1, firstAt := rec.firstAt }) ∧
    ((trackAttempt attempts ip now maxAttempts windowMs).1 = false →
      mapGet
        (authenticate attempts ip true true true now maxAttempts windowMs).2
        ip = none) ∧
    (mapGet attempts ip = some rec → windowMs < now - rec.firstAt →
      1 ≤ maxAttempts →
      (authenticate attempts ip true true true now maxAttempts windowMs).1 =
        .success 200) := by
  have hipb : ((ip == "") = true) → False := by simp [hip]
  have htrackReset : mapGet attempts ip = some rec →
      windowMs < now - rec.firstAt → 1 ≤ maxAttempts →
      trackAttempt attempts ip now maxAttempts windowMs =
        (false, mapSet attempts ip { count := 1, firstAt := now }) := by
    intro hrec hwin hmax
    unfold trackAttempt
    rw [if_neg hipb, hrec]
    simp only
    rw [if_pos hwin]
    rw [if_neg (by simp; omega)]
  have htrackBlocked : mapGet attempts ip = some rec →
      ¬(windowMs < now - rec.firstAt) → maxAttempts ≤ rec.count →
      trackAttempt attempts ip now maxAttempts windowMs =
        (true, mapSet attempts ip rec) := by
    intro hrec hwin hcount
    unfold trackAttempt
    rw [if_neg hipb, hrec]
    simp only
    rw [if_neg hwin, if_pos hcount]
  have htrackStep : mapGet attempts ip = some rec →
      ¬(windowMs < now - rec.firstAt) → rec.count < maxAttempts →
      trackAttempt attempts ip now maxAttempts windowMs =
        (false,
          mapSet attempts ip
            { count := rec.count + 1, firstAt := rec.firstAt }) := by
    intro hrec hwin hcount
    unfold trackAttempt
    rw [if_neg hipb, hrec]
    simp only
    rw [if_neg hwin, if_neg (by omega)]
  refine ⟨htrackReset, ?_, ?_, ?_, ?_⟩
  · intro hrec hwin hcount hasUsername hasPassword credentialsOk
    unfold authenticate
    rw [htrackBlocked hrec hwin hcount]
    rfl
  · intro hrec hwin hcount
    refine ⟨htrackStep hrec hwin hcount, ?_⟩
    rw [htrackStep hrec hwin hcount]
    exact mapGet_mapSet_self attempts ip _
  · intro hb
    unfold authenticate
    cases htr : trackAttempt attempts ip now maxAttempts windowMs with
    | mk b a1 =>
      rw [htr] at hb
      simp only at hb
      subst hb
      show mapGet (resetAttempts a1 ip) ip = none
      unfold resetAttempts
      rw [if_neg hipb]
      exact mapGet_mapDelete_self a1 ip
  · intro hrec hwin hmax
    unfold authenticate
    rw [htrackReset hrec hwin hmax]
    rfl

/-- C6 witness: with `maxAttempts = 2` and a 1000ms window, the record
`{count := 2, firstAt := 0}` blocks a correct login at instant 500 with 429,
while at instant 2000 (window lapsed) the same correct login succeeds and
clears the IP's record. -/
theorem C6_login_rate_limiting_witness :
    (authenticate [("1.2.3.4", { count := 2, firstAt := 0 })] "1.2.3.4"
        true true true 500 2 1000 =
      (.rateLimited 429,
        mapSet [("1.2.3.4", { count := 2, firstAt := 0 })] "1.2.3.4"
          { count := 2, firstAt := 0 })) ∧
    ((authenticate [("1.2.3.4", { count := 2, firstAt := 0 })] "1.2.3.4"
        true true true 2000 2 1000).1 = .success 200) ∧
    (mapGet
      (authenticate [("1.2.3.4", { count := 0, firstAt := 0 })] "1.2.3.4"
        true true true 0 2 1000).2 "1.2.3.4" = none) :=
  ⟨(C6_login_rate_limiting [("1.2.3.4", { count := 2, firstAt := 0 })]
      "1.2.3.4" 500 2 1000 { count := 2, firstAt := 0 }
      (by decide)).2.1 (by decide) (by decide) (by decide) true true true,
   (C6_login_rate_limiting [("1.2.3.4", { count := 2, firstAt := 0 })]
      "1.2.3.4" 2000 2 1000 { count := 2, firstAt := 0 }
      (by decide)).2.2.2.2 (by decide) (by decide) (by decide),
   (C6_login_rate_limiting [("1.2.3.4", { count := 0, firstAt := 0 })]
      "1.2.3.4" 0 2 1000 { count := 0, firstAt := 0 }
      (by decide)).2.2.2.1 (by decide)⟩

/-- C7: `requireAuth` hashes the presented token and looks the session up by
hash; a missing token, an unmatched hash, a revoked session (`revoked_at`
set) or an expired one (`expires_at ≤ now`) yields 401 — and in the
revoked/expired case the stale row is deleted from the store on that
discovery while all other rows survive; otherwise it refreshes
`last_seen_at` on the stored row and returns the admin identity plus the
session metadata. -/
theorem C7_requireAuth_introspection (sessions : List AdminSession)
    (admins : List AdminUser) (hash : String → String) (now : Nat) :
    (requireAuth sessions admins none hash now =
      (.unauthorized 401 "Authentication required", sessions)) ∧
    (∀ tok, sessions.find? (fun s => s.sessionTokenHash == hash tok) = none →
      requireAuth sessions admins (some tok) hash now =
        (.unauthorized 401 "Invalid or expired session", sessions)) ∧
    (∀ tok s,
      sessions.find? (fun x => x.sessionTokenHash == hash tok) = some s →
      (s.revokedAt.isSome = true ∨ s.expiresAt ≤ now) →
      (requireAuth sessions admins (some tok) hash now).1 =
          .unauthorized 401 "Session expired" ∧
      (∀ x ∈ (requireAuth sessions admins (some tok) hash now).2,
        x.id ≠ s.id) ∧
      (∀ x ∈ sessions, x.id ≠ s.id →
        x ∈ (requireAuth sessions admins (some tok) hash now).2)) ∧
    (∀ tok s,
      sessions.find? (fun x => x.sessionTokenHash == hash tok) = some s →
      s.revokedAt = none → now < s.expiresAt →
      requireAuth sessions admins (some tok) hash now =
        (.ok { id := s.id, adminUserId := s.adminUserId,
               createdAt := s.createdAt, lastSeenAt := s.lastSeenAt,
               expiresAt := s.expiresAt, ip := s.ipAddress,
               userAgent := s.userAgent }
            ((admins.find? (fun a => a.id == s.adminUserId)).map
              sanitizeAdmin),
          sessions.map (fun x =>
            if x.id == s.id then { x with lastSeenAt := now } else x))) := by
  refine ⟨rfl, ?_, ?_, ?_⟩
  · intro tok hfind
    unfold requireAuth
    simp only [hfind]
  · intro tok s hfind hstale
    have hcond : (s.revokedAt.isSome || decide (s.expiresAt ≤ now)) = true := by
      rcases hstale with h | h
      · simp [h]
      · simp [h]
    have hreq : requireAuth sessions admins (some tok) hash now =
        (.unauthorized 401 "Session expired",
          sessions.filter (fun x => !(x.id == s.id))) := by
      unfold requireAuth
      simp only [hfind, hcond, if_true]
    refine ⟨by rw [hreq], ?_, ?_⟩
    · intro x hx
      rw [hreq] at hx
      have := List.mem_filter.mp hx
      simpa using this.2
    · intro x hx hne
      rw [hreq]
      exact List.mem_filter.mpr ⟨hx, by simpa using hne⟩
  · intro tok s hfind hrev hexp
    have hcond : ¬((s.revokedAt.isSome || decide (s.expiresAt ≤ now)) = true) := by
      simp [hrev]
      omega
    unfold requireAuth
    simp only [hfind, if_neg hcond]

/-- C7 witness: a missing token is rejected; an expired stored session is
rejected with deletion of its row; a live session is accepted with its
metadata and the admin identity, and its `last_seen_at` refreshed. -/
theorem C7_requireAuth_introspection_witness :
    (requireAuth
      [{ id := "s1", adminUserId := "a1", sessionTokenHash := "h1",
         ipAddress := none, userAgent := none, createdAt := 0,
         lastSeenAt := 0, expiresAt := 10, revokedAt := none }]
      [] none (fun t => t) 20 =
      (.unauthorized 401 "Authentication required",
        [{ id := "s1", adminUserId := "a1", sessionTokenHash := "h1",
           ipAddress := none, userAgent := none, createdAt := 0,
           lastSeenAt := 0, expiresAt := 10, revokedAt := none }])) ∧
    ((requireAuth
      [{ id := "s1", adminUserId := "a1", sessionTokenHash := "h1",
         ipAddress := none, userAgent := none, createdAt := 0,
         lastSeenAt := 0, expiresAt := 10, revokedAt := none }]
      [] (some "h1") (fun t => t) 20).1 =
        .unauthorized 401 "Session expired") ∧
    (requireAuth
      [{ id := "s1", adminUserId := "a1", sessionTokenHash := "h1",
         ipAddress := none, userAgent := none, createdAt := 0,
         lastSeenAt := 0, expiresAt := 10, revokedAt := none }]
      [] (some "h1") (fun t => t) 5 =
      (.ok { id := "s1", adminUserId := "a1", createdAt := 0,
             lastSeenAt := 0, expiresAt := 10, ip := none,
             userAgent := none } none,
        [{ id := "s1", adminUserId := "a1", sessionTokenHash := "h1",
           ipAddress := none, userAgent := none, createdAt := 0,
           lastSeenAt := 5, expiresAt := 10, revokedAt := none }])) := by
  refine ⟨(C7_requireAuth_introspection _ [] (fun t => t) 20).1, ?_, ?_⟩
  · exact ((C7_requireAuth_introspection
      [{ id := "s1", adminUserId := "a1", sessionTokenHash := "h1",
         ipAddress := none, userAgent := none, createdAt := 0,
         lastSeenAt := 0, expiresAt := 10, revokedAt := none }]
      [] (fun t => t) 20).2.2.1 "h1"
      { id := "s1", adminUserId := "a1", sessionTokenHash := "h1",
        ipAddress := none, userAgent := none, createdAt := 0,
        lastSeenAt := 0, expiresAt := 10, revokedAt := none }
      (by decide) (Or.inr (by decide))).1
  · have := (C7_requireAuth_introspection
      [{ id := "s1", adminUserId := "a1", sessionTokenHash := "h1",
         ipAddress := none, userAgent := none, createdAt := 0,
         lastSeenAt := 0, expiresAt := 10, revokedAt := none }]
      [] (fun t => t) 5).2.2.2 "h1"
      { id := "s1", adminUserId := "a1", sessionTokenHash := "h1",
        ipAddress := none, userAgent := none, createdAt := 0,
        lastSeenAt := 0, expiresAt := 10, revokedAt := none }
      (by decide) rfl (by decide)
    simpa using this

/-- If the update body's `status` field is present and does not uppercase to
ACTIVE, a successful parse can only have recorded DISABLED. -/
theorem parseUpdateBody_status (b : UpdateAdminBody) (u : AdminUpdates)
    (st : String) (hp : parseUpdateBody b = some u) (hst : b.status = some st)
    (hne : (toUpperStr st == "ACTIVE") = false) :
    u.status = some AdminStatus.DISABLED := by
  unfold parseUpdateBody at hp
  rw [hst] at hp
  by_cases hd : (toUpperStr st == "DISABLED") = true
  · simp only [hne, hd, Bool.false_eq_true, if_false, if_true] at hp
    repeat' split at hp
    all_goals
      first
        | exact Option.noConfusion hp
        | (injection hp with h; subst h; simp_all)
  · have hd2 : (toUpperStr st == "DISABLED") = false := by
      cases hdd : (toUpperStr st == "DISABLED") with
      | false => rfl
      | true => exact absurd hdd hd
    simp only [hne, hd2, Bool.false_eq_true, if_false] at hp
    repeat' split at hp
    all_goals exact Option.noConfusion hp

/-- A successful parse copies the body's `is_permanent` field verbatim. -/
theorem parseUpdateBody_isPermanent (b : UpdateAdminBody) (u : AdminUpdates)
    (hp : parseUpdateBody b = some u) :
    u.isPermanent = b.is_permanent := by
  unfold parseUpdateBody at hp
  simp only [] at hp
  repeat' split at hp
  all_goals
    first
      | exact Option.noConfusion hp
      | (injection hp with h; subst h; simp_all)

/-- C8: against a permanent admin, an update that sets status to anything
not uppercasing to ACTIVE, an update that clears `is_permanent`, a
hard-delete request, and a disable request all fail with a 400 business
error and leave every store unchanged. -/
theorem C8_permanent_admin_guard (admins : List AdminUser)
    (stores : AdminStores) (id : String) (target : AdminUser)
    (b : UpdateAdminBody) (hashPw : String → String) (now : Nat)
    (selfId : Option String) (reason : Option String)
    (hperm : target.isPermanent = true) :
    (admins.find? (fun a => a.id == id) = some target →
      ∀ st, b.status = some st → (toUpperStr st == "ACTIVE") = false →
      ∃ msg, updateAdminCtrl admins id b hashPw now =
        (.badRequest 400 msg, admins)) ∧
    (admins.find? (fun a => a.id == id) = some target →
      b.is_permanent = some false →
      ∃ msg, updateAdminCtrl admins id b hashPw now =
        (.badRequest 400 msg, admins)) ∧
    (stores.admins.find? (fun a => a.id == id) = some target →
      ∃ msg, deleteAdminCtrl stores id selfId true reason now =
        (.badRequest 400 msg, stores)) ∧
    (stores.admins.find? (fun a => a.id == id) = some target →
      ∃ msg, deleteAdminCtrl stores id selfId false reason now =
        (.badRequest 400 msg, stores)) := by
  refine ⟨?_, ?_, ?_, ?_⟩
  · intro hfind st hst hne
    cases hp : parseUpdateBody b with
    | none =>
      refine ⟨"invalid field", ?_⟩
      unfold updateAdminCtrl
      rw [hp]
    | some u =>
      have hstat : u.status = some AdminStatus.DISABLED :=
        parseUpdateBody_status b u st hp hst hne
      have hne2 : u.isEmpty = false := by
        unfold AdminUpdates.isEmpty
        rw [hstat]
        simp
      refine ⟨"Cannot change status of permanent admin", ?_⟩
      simp [updateAdminCtrl, hp, hne2, hfind, hperm, hstat]
  · intro hfind hbp
    cases hp : parseUpdateBody b with
    | none =>
      refine ⟨"invalid field", ?_⟩
      unfold updateAdminCtrl
      rw [hp]
    | some u =>
      have hup : u.isPermanent = some false := by
        rw [parseUpdateBody_isPermanent b u hp, hbp]
      have hne2 : u.isEmpty = false := by
        unfold AdminUpdates.isEmpty
        rw [hup]
        simp
      by_cases hg :
          (target.isPermanent && (u.status == some AdminStatus.DISABLED)) = true
      · refine ⟨"Cannot change status of permanent admin", ?_⟩
        simp [updateAdminCtrl, hp, hne2, hfind, hg]
      · refine ⟨"Cannot unset permanent flag from permanent admin", ?_⟩
        have hg2 : ¬(u.status = some AdminStatus.DISABLED) := by
          intro hc
          exact hg (by simp [hperm, hc])
        simp [updateAdminCtrl, hp, hne2, hfind, hperm, hup, hg2]
  · intro hfind
    by_cases hself : (selfId == some id) = true
    · refine ⟨"You cannot delete the active admin session", ?_⟩
      unfold deleteAdminCtrl
      rw [if_pos hself]
    · refine ⟨"Cannot hard delete a permanent admin", ?_⟩
      simp [deleteAdminCtrl, hself, hfind, hperm]
  · intro hfind
    by_cases hself : (selfId == some id) = true
    · refine ⟨"You cannot delete the active admin session", ?_⟩
      unfold deleteAdminCtrl
      rw [if_pos hself]
    · refine ⟨"Cannot disable a permanent admin", ?_⟩
      simp [deleteAdminCtrl, hself, hfind, hperm]

/-- C8 witness: against the permanent admin `a1`, a status update to
"disabled", clearing `is_permanent`, a hard delete and a disable all return
400 and leave the stores unchanged. -/
theorem C8_permanent_admin_guard_witness :
    (∃ msg, updateAdminCtrl
      [{ id := "a1", username := "root", passwordHash := "h",
         status := AdminStatus.ACTIVE, isPermanent := true,
         expiresAt := none, lastLoginAt := none, createdAt := 0,
         updatedAt := 0, createdById := none, notes := none }]
      "a1"
      { username := none, password := none, status := some "disabled",
        expires_at := none, is_permanent := none, notes := none }
      (fun p => p) 0 =
      (.badRequest 400 msg,
        [{ id := "a1", username := "root", passwordHash := "h",
           status := AdminStatus.ACTIVE, isPermanent := true,
           expiresAt := none, lastLoginAt := none, createdAt := 0,
           updatedAt := 0, createdById := none, notes := none }])) ∧
    (∃ msg, updateAdminCtrl
      [{ id := "a1", username := "root", passwordHash := "h",
         status := AdminStatus.ACTIVE, isPermanent := true,
         expiresAt := none, lastLoginAt := none, createdAt := 0,
         updatedAt := 0, createdById := none, notes := none }]
      "a1"
      { username := none, password := none, status := none,
        expires_at := none, is_permanent := some false, notes := none }
      (fun p => p) 0 =
      (.badRequest 400 msg,
        [{ id := "a1", username := "root", passwordHash := "h",
           status := AdminStatus.ACTIVE, isPermanent := true,
           expiresAt := none, lastLoginAt := none, createdAt := 0,
           updatedAt := 0, createdById := none, notes := none }])) ∧
    (∃ msg, deleteAdminCtrl
      { admins := [{ id := "a1", username := "root", passwordHash := "h",
                     status := AdminStatus.ACTIVE, isPermanent := true,
                     expiresAt := none, lastLoginAt := none, createdAt := 0,
                     updatedAt := 0, createdById := none, notes := none }],
        sessions := [], keys := [] }
      "a1" none true none 0 =
      (.badRequest 400 msg,
        { admins := [{ id := "a1", username := "root", passwordHash := "h",
                       status := AdminStatus.ACTIVE, isPermanent := true,
                       expiresAt := none, lastLoginAt := none,
                       createdAt := 0, updatedAt := 0, createdById := none,
                       notes := none }],
          sessions := [], keys := [] })) ∧
    (∃ msg, deleteAdminCtrl
      { admins := [{ id := "a1", username := "root", passwordHash := "h",
                     status := AdminStatus.ACTIVE, isPermanent := true,
                     expiresAt := none, lastLoginAt := none, createdAt := 0,
                     updatedAt := 0, createdById := none, notes := none }],
        sessions := [], keys := [] }
      "a1" none false none 0 =
      (.badRequest 400 msg,
        { admins := [{ id := "a1", username := "root", passwordHash := "h",
                       status := AdminStatus.ACTIVE, isPermanent := true,
                       expiresAt := none, lastLoginAt := none,
                       createdAt := 0, updatedAt := 0, createdById := none,
                       notes := none }],
          sessions := [], keys := [] })) := by
  refine ⟨?_, ?_, ?_, ?_⟩
  · exact (C8_permanent_admin_guard
      [{ id := "a1", username := "root", passwordHash := "h",
         status := AdminStatus.ACTIVE, isPermanent := true,
         expiresAt := none, lastLoginAt := none, createdAt := 0,
         updatedAt := 0, createdById := none, notes := none }]
      { admins := [], sessions := [], keys := [] } "a1"
      { id := "a1", username := "root", passwordHash := "h",
        status := AdminStatus.ACTIVE, isPermanent := true,
        expiresAt := none, lastLoginAt := none, createdAt := 0,
        updatedAt := 0, createdById := none, notes := none }
      { username := none, password := none, status := some "disabled",
        expires_at := none, is_permanent := none, notes := none }
      (fun p => p) 0 none none rfl).1 (by decide) "disabled" rfl (by decide)
  · exact (C8_permanent_admin_guard
      [{ id := "a1", username := "root", passwordHash := "h",
         status := AdminStatus.ACTIVE, isPermanent := true,
         expiresAt := none, lastLoginAt := none, createdAt := 0,
         updatedAt := 0, createdById := none, notes := none }]
      { admins := [], sessions := [], keys := [] } "a1"
      { id := "a1", username := "root", passwordHash := "h",
        status := AdminStatus.ACTIVE, isPermanent := true,
        expiresAt := none, lastLoginAt := none, createdAt := 0,
        updatedAt := 0, createdById := none, notes := none }
      { username := none, password := none, status := none,
        expires_at := none, is_permanent := some false, notes := none }
      (fun p => p) 0 none none rfl).2.1 (by decide) rfl
  · exact (C8_permanent_admin_guard []
      { admins := [{ id := "a1", username := "root", passwordHash := "h",
                     status := AdminStatus.ACTIVE, isPermanent := true,
                     expiresAt := none, lastLoginAt := none, createdAt := 0,
                     updatedAt := 0, createdById := none, notes := none }],
        sessions := [], keys := [] } "a1"
      { id := "a1", username := "root", passwordHash := "h",
        status := AdminStatus.ACTIVE, isPermanent := true,
        expiresAt := none, lastLoginAt := none, createdAt := 0,
        updatedAt := 0, createdById := none, notes := none }
      { username := none, password := none, status := none,
        expires_at := none, is_permanent := none, notes := none }
      (fun p => p) 0 none none rfl).2.2.1 (by decide)
  · exact (C8_permanent_admin_guard []
      { admins := [{ id := "a1", username := "root", passwordHash := "h",
                     status := AdminStatus.ACTIVE, isPermanent := true,
                     expiresAt := none, lastLoginAt := none, createdAt := 0,
                     updatedAt := 0, createdById := none, notes := none }],
        sessions := [], keys := [] } "a1"
      { id := "a1", username := "root", passwordHash := "h",
        status := AdminStatus.ACTIVE, isPermanent := true,
        expiresAt := none, lastLoginAt := none, createdAt := 0,
        updatedAt := 0, createdById := none, notes := none }
      { username := none, password := none, status := none,
        expires_at := none, is_permanent := none, notes := none }
      (fun p => p) 0 none none rfl).2.2.2 (by decide)

/-- C10: `listAdmins` returns exactly the stored admins (password hash
stripped) that survive its filter, and the filter rejects precisely a
permanent admin whose lowercased username equals the configured default
admin username (trimmed, lowercased) — so a configured bootstrap account
never appears in the listing. -/
theorem C10_listAdmins_hides_bootstrap (admins : List AdminUser)
    (envAdminUsername : String) :
    (∀ a : SanitizedAdmin,
      a ∈ listAdmins admins envAdminUsername ↔
        ∃ b ∈ admins, keepAdmin envAdminUsername b = true ∧
          sanitizeAdmin b = a) ∧
    (∀ b : AdminUser, toLowerStr (trimStr envAdminUsername) ≠ "" →
      toLowerStr b.username = toLowerStr (trimStr envAdminUsername) →
      b.isPermanent = true → keepAdmin envAdminUsername b = false) := by
  constructor
  · intro a
    unfold listAdmins
    simp only [List.mem_map, List.mem_filter]
    constructor
    · rintro ⟨b, ⟨hb, hk⟩, hs⟩
      exact ⟨b, hb, hk, hs⟩
    · rintro ⟨b, hb, hk, hs⟩
      exact ⟨b, ⟨hb, hk⟩, hs⟩
  · intro b hne husr hperm
    simp only [keepAdmin]
    rw [if_neg (by simp [hne])]
    simp [husr, hperm]

/-- C10 witness: with `ADMIN_USERNAME = "Root"`, the seeded permanent admin
(case-insensitively matching username) is rejected by the filter, while a
regular admin appears sanitized in the listing. -/
theorem C10_listAdmins_hides_bootstrap_witness :
    keepAdmin "Root"
      { id := "a1", username := "ROOT", passwordHash := "h",
        status := AdminStatus.ACTIVE, isPermanent := true,
        expiresAt := none, lastLoginAt := none, createdAt := 0,
        updatedAt := 0, createdById := none, notes := none } = false ∧
    (sanitizeAdmin
        { id := "a2", username := "bob", passwordHash := "h2",
          status := AdminStatus.ACTIVE, isPermanent := false,
          expiresAt := none, lastLoginAt := none, createdAt := 0,
          updatedAt := 0, createdById := none, notes := none } ∈
      listAdmins
        [{ id := "a2", username := "bob", passwordHash := "h2",
           status := AdminStatus.ACTIVE, isPermanent := false,
           expiresAt := none, lastLoginAt := none, createdAt := 0,
           updatedAt := 0, createdById := none, notes := none }] "Root") :=
  ⟨(C10_listAdmins_hides_bootstrap [] "Root").2
      { id := "a1", username := "ROOT", passwordHash := "h",
        status := AdminStatus.ACTIVE, isPermanent := true,
        expiresAt := none, lastLoginAt := none, createdAt := 0,
        updatedAt := 0, createdById := none, notes := none }
      (by decide) (by decide) rfl,
   ((C10_listAdmins_hides_bootstrap
      [{ id := "a2", username := "bob", passwordHash := "h2",
         status := AdminStatus.ACTIVE, isPermanent := false,
         expiresAt := none, lastLoginAt := none, createdAt := 0,
         updatedAt := 0, createdById := none, notes := none }] "Root").1
      (sanitizeAdmin
        { id := "a2", username := "bob", passwordHash := "h2",
          status := AdminStatus.ACTIVE, isPermanent := false,
          expiresAt := none, lastLoginAt := none, createdAt := 0,
          updatedAt := 0, createdById := none, notes := none })).mpr
      ⟨{ id := "a2", username := "bob", passwordHash := "h2",
         status := AdminStatus.ACTIVE, isPermanent := false,
         expiresAt := none, lastLoginAt := none, createdAt := 0,
         updatedAt := 0, createdById := none, notes := none },
       List.mem_cons_self _ _, by decide, rfl⟩⟩

end KeyApi
